import Mathlib

/-!
Verification development for the automated-quiz-solver repository.

The Python sources (`quiz_solver.py`, `data_processor.py`, `visualizer.py`,
`app.py`) are embedded shallowly: pure logic is translated into Lean
functions, external collaborators (HTTP, the language model, `json.loads`,
`urllib.parse.urljoin`, matplotlib rendering, pandas I/O) are passed in as
oracle parameters, and Python values are modelled by the `PyVal` type.
Machine floats produced by Python's `float(...)` on decimal tokens are
modelled exactly as rationals; only decimal-literal parsing occurs in the
embedded code, so no IEEE rounding is involved in any statement.
-/

/-- Model of a Python/JSON value as produced and consumed by
`quiz_solver.py` (answers, parsed JSON, grading responses). -/
inductive PyVal where
  | int (n : Int)
  | float (q : ℚ)
  | str (s : String)
  | bool (b : Bool)
  | list (xs : List PyVal)
  | dict (kvs : List (String × PyVal))
  | null

/-! ## Character and string primitives

The embedded code works on `List Char`; `String` wrappers mirror the
Python string operations used by `quiz_solver.py`. -/

/-- ASCII lowercasing of one character, the model of Python `str.lower`
restricted to ASCII (all strings the claims quantify over are ASCII). -/
def asciiLowerChar : Char → Char
  | 'A' => 'a' | 'B' => 'b' | 'C' => 'c' | 'D' => 'd' | 'E' => 'e' | 'F' => 'f'
  | 'G' => 'g' | 'H' => 'h' | 'I' => 'i' | 'J' => 'j' | 'K' => 'k' | 'L' => 'l'
  | 'M' => 'm' | 'N' => 'n' | 'O' => 'o' | 'P' => 'p' | 'Q' => 'q' | 'R' => 'r'
  | 'S' => 's' | 'T' => 't' | 'U' => 'u' | 'V' => 'v' | 'W' => 'w' | 'X' => 'x'
  | 'Y' => 'y' | 'Z' => 'z' | c => c

/-- Model of Python `str.lower`. -/
def asciiLower (s : String) : String := String.mk (s.toList.map asciiLowerChar)

/-- The whitespace characters stripped by Python `str.strip()` (ASCII part). -/
def pyWS (c : Char) : Bool :=
  c = ' ' || c = '\t' || c = '\n' || c = '\r' || c = '\x0b' || c = '\x0c'

/-- Strip leading and trailing whitespace from a character list. -/
def stripList (l : List Char) : List Char :=
  ((l.dropWhile pyWS).reverse.dropWhile pyWS).reverse

/-- Model of Python `str.strip()`. -/
def pyStrip (s : String) : String := String.mk (stripList s.toList)

/-- Boolean test that `pat` is a prefix of `l`. -/
def listStarts (l pat : List Char) : Bool :=
  match l, pat with
  | _, [] => true
  | [], _ :: _ => false
  | c :: cs, p :: ps => (c = p) && listStarts cs ps

/-- Model of Python `str.startswith`. -/
def strStartsWith (s pat : String) : Bool := listStarts s.toList pat.toList

/-- Boolean substring test on character lists (Python `in` on strings). -/
def listContains (hay needle : List Char) : Bool :=
  match hay with
  | [] => needle.isEmpty
  | c :: t => listStarts (c :: t) needle || listContains t needle

/-- Model of Python `needle in hay` for strings. -/
def strContains (hay needle : String) : Bool := listContains hay.toList needle.toList

/-- Replace every occurrence of `pat` by `rep`, scanning left to right;
`fuel` is the length of the remaining input, which bounds the recursion. -/
def replaceFrom (pat rep : List Char) : Nat → List Char → List Char
  | _, [] => []
  | 0, l => l
  | fuel + 1, c :: rest =>
    if pat ≠ [] ∧ listStarts (c :: rest) pat then
      rep ++ replaceFrom pat rep fuel (List.drop pat.length (c :: rest))
    else
      c :: replaceFrom pat rep fuel rest

/-- Model of Python `str.replace` (for a non-empty pattern, the only use
in the source). -/
def strReplace (s pat rep : String) : String :=
  String.mk (replaceFrom pat.toList rep.toList s.toList.length s.toList)

/-- Model of Python `s[:50]` slicing used for the chart title. -/
def pySlice50 (s : String) : String := String.mk (s.toList.take 50)

/-! ## URL parsing

Model of the parts of `urllib.parse.urlparse` used by the submit-URL
repair in `quiz_solver.py` (`scheme` and `netloc`). -/

/-- Characters allowed in a URL scheme after the first letter. -/
def validSchemeChar (c : Char) : Bool :=
  c.isAlpha || c.isDigit || c = '+' || c = '-' || c = '.'

/-- Split a character list at the first `':'`, returning the parts before
and after it. -/
def schemeSplitGo (acc : List Char) : List Char → Option (List Char × List Char)
  | [] => none
  | c :: rest =>
    if c = ':' then some (acc.reverse, rest) else schemeSplitGo (c :: acc) rest

/-- Scheme/remainder split of a URL, as in `urllib.parse.urlsplit`: the
scheme is the lowercased part before the first `':'` when it is non-empty,
starts with a letter and uses only scheme characters; otherwise empty. -/
def urlSplitScheme (url : String) : String × String :=
  match schemeSplitGo [] url.toList with
  | some (pre, rest) =>
    if (match pre with | c :: _ => c.isAlpha | [] => false) && pre.all validSchemeChar then
      (String.mk (pre.map asciiLowerChar), String.mk rest)
    else
      ("", url)
  | none => ("", url)

/-- Model of `urlparse(url).scheme`. -/
def urlScheme (url : String) : String := (urlSplitScheme url).1

/-- Characters that terminate the netloc in `urllib.parse.urlsplit`. -/
def netlocStop (c : Char) : Bool := c = '/' || c = '?' || c = '#'

/-- Model of `urlparse(url).netloc`: after removing the scheme, the part
between a leading `"//"` and the next `'/'`, `'?'` or `'#'`. -/
def urlNetloc (url : String) : String :=
  match (urlSplitScheme url).2.toList with
  | '/' :: '/' :: t => String.mk (t.takeWhile fun c => !netlocStop c)
  | _ => ""

/-! ## Submit-URL repair — `QuizSolver.analyze_and_solve`, lines 172–185

`urljoin` is `urllib.parse.urljoin`, an external library function, passed
as an oracle parameter; no claim exercises that branch. -/

/-- Embedding of the submit-URL repair block of
`QuizSolver.analyze_and_solve` (quiz_solver.py lines 172–185). -/
def repairSubmitUrl (urljoin : String → String → String)
    (quiz_url submit_url : String) : String :=
  if submit_url ≠ "" ∧
      (strContains submit_url "current-page-url" = true ∨
        strStartsWith submit_url "http" = false) then
    if strStartsWith submit_url "/" then
      urlScheme quiz_url ++ "://" ++ urlNetloc quiz_url ++ submit_url
    else if strContains submit_url "current-page-url" then
      let s := strReplace submit_url "current-page-url" (urlNetloc quiz_url)
      if strStartsWith s "http" = false then
        urlScheme quiz_url ++ "://" ++ s
      else s
    else urljoin quiz_url submit_url
  else submit_url

/-! ## Number extraction — the `'number'` branch of
`QuizSolver.execute_solution_plan`

Model of `re.findall(r'-?\d+\.?\d*', text)[0]`: scan positions left to
right; at each position greedily match an optional sign, one or more
digits, an optional decimal point and trailing digits. `\d` is modelled
as an ASCII digit. -/

/-- Digits taken greedily from the front of a list. -/
def takeDigits (l : List Char) : List Char := l.takeWhile Char.isDigit

/-- Remainder after the greedy digit run. -/
def dropDigits (l : List Char) : List Char := l.dropWhile Char.isDigit

/-- Greedy match of `-?\d+\.?\d*` anchored at the head of the list. -/
def matchNumAt (l : List Char) : Option (List Char) :=
  let p := match l with
    | '-' :: t => (true, t)
    | _ => (false, l)
  match p.2 with
  | c :: _ =>
    if c.isDigit then
      let ds := takeDigits p.2
      let rest := dropDigits p.2
      let q := match rest with
        | '.' :: t => ([('.' : Char)], t)
        | _ => (([] : List Char), rest)
      some ((if p.1 then ['-'] else []) ++ ds ++ q.1 ++ takeDigits q.2)
    else none
  | [] => none

/-- First (leftmost) match of `-?\d+\.?\d*`, the model of
`re.findall(...)[0]` in the `'number'` branch. -/
def firstNumToken : List Char → Option (List Char)
  | [] => none
  | c :: rest =>
    match matchNumAt (c :: rest) with
    | some t => some t
    | none => firstNumToken rest

/-- Value of a digit run. -/
def digitsToNat (ds : List Char) : Nat :=
  ds.foldl (fun a c => a * 10 + (c.toNat - 48)) 0

/-- Split a leading `'-'` sign off a token. -/
def splitSign : List Char → Bool × List Char
  | '-' :: t => (true, t)
  | l => (false, l)

/-- Model of Python `int(tok)` on a matched token without a decimal point. -/
def parseIntTok (tok : List Char) : Int :=
  let p := splitSign tok
  let n : Int := digitsToNat (takeDigits p.2)
  if p.1 then -n else n

/-- Model of Python `float(tok)` on a matched token, as an exact rational:
decimal tokens of the form `-?\d+\.?\d*` denote exact decimal fractions. -/
def parseFloatTok (tok : List Char) : ℚ :=
  let p := splitSign tok
  let ds := takeDigits p.2
  let fs := match dropDigits p.2 with
    | '.' :: u => takeDigits u
    | _ => []
  let v : ℚ := (digitsToNat ds : ℚ) + (digitsToNat fs : ℚ) / ((10 : ℚ) ^ fs.length)
  if p.1 then -v else v

/-! ## Brace extraction — the `'json'` branch -/

/-- Model of the first-`'{'` / last-`'}'` substring extraction
(`answer_text[start_idx:end_idx]` with `find`/`rfind`), returning `none`
when the Python condition `start_idx != -1 and end_idx > start_idx` fails. -/
def extractBraces (l : List Char) : Option (List Char) :=
  match l.findIdx? (· = '{'), l.reverse.findIdx? (· = '}') with
  | some i, some k =>
    let j := l.length - 1 - k
    if i < j + 1 then some ((l.drop i).take (j + 1 - i)) else none
  | _, _ => none

/-! ## Acquired data — `DataProcessor.fetch_and_process` output shape -/

/-- Column-oriented data frame: the model of the `df.to_dict()` records
stored by `data_processor.py` (column name to column values; the columns
of one frame share one row index). -/
abbrev Frame := List (String × List PyVal)

/-- Tagged record produced by `DataProcessor.fetch_and_process`: one
constructor per `'type'` tag, plus `rawText` for the plain-string return
on an unknown content type. Fields not consumed by `quiz_solver.py`
(summaries, page numbers) are elided. -/
inductive DataItem where
  | pdf (text : String) (tables : List Frame)
  | csv (dataframe : Frame)
  | json (data : PyVal)
  | excel (sheets : List (String × Frame))
  | html (text : String) (tables : List Frame)
  | rawText (s : String)

/-- Python truthiness of a value appended to `downloaded_data`: the dict
records are non-empty dicts (always truthy), a raw string is truthy when
non-empty. -/
def itemTruthy : DataItem → Bool
  | .rawText s => !s.isEmpty
  | _ => true

/-- Data handed to the chart collaborator: a data frame or a dict. -/
inductive ChartData where
  | frame (f : Frame)
  | dict (kvs : List (String × PyVal))

/-- Number of rows of a frame, the model of `len(pd.DataFrame(d))` on a
column dict whose columns share one row index. -/
def frameRows (f : Frame) : Nat := f.foldr (fun c a => max c.2.length a) 0

/-- Embedding of `QuizSolver.prepare_chart_data` (quiz_solver.py lines
288–319): scan `downloaded_data` in list order; a csv item with a truthy
column dict and at least one row, an excel item whose first sheet has
such data, or a json item holding a dict is returned immediately; a plain
string item raises `AttributeError` on `.get`, caught by the surrounding
handler, so the whole call returns `None`. -/
def prepareChartData : List DataItem → Option ChartData
  | [] => none
  | item :: rest =>
    match item with
    | .csv df =>
      if df.isEmpty = false ∧ 0 < frameRows df then some (.frame df)
      else prepareChartData rest
    | .excel sheets =>
      match sheets with
      | [] => prepareChartData rest
      | (_, d) :: _ =>
        if d.isEmpty = false ∧ 0 < frameRows d then some (.frame d)
        else prepareChartData rest
    | .json v =>
      match v with
      | .dict kvs => some (.dict kvs)
      | _ => prepareChartData rest
    | .rawText _ => none
    | _ => prepareChartData rest

/-- Chart data yielded by one acquired datum, written to the spec's words
("yields non-empty tabular or dictionary data") for the refinement
comparison with `prepareChartData`. -/
def chartDatumOf : DataItem → Option ChartData
  | .csv df =>
    if df.isEmpty = false ∧ 0 < frameRows df then some (.frame df) else none
  | .excel sheets =>
    match sheets with
    | [] => none
    | (_, d) :: _ =>
      if d.isEmpty = false ∧ 0 < frameRows d then some (.frame d) else none
  | .json v =>
    match v with
    | .dict kvs => some (.dict kvs)
    | _ => none
  | _ => none

/-- Embedding of `QuizSolver.determine_chart_type`. -/
def determineChartType (answer_text : String) : String :=
  let lt := asciiLower answer_text
  if strContains lt "pie" then "pie"
  else if strContains lt "line" || strContains lt "trend" || strContains lt "time" then "line"
  else "bar"

/-! ## Plan and answer resolution — `QuizSolver.execute_solution_plan` -/

/-- The plan dict extracted from the model's JSON: `none` fields model
missing keys (`plan.get(...)` defaults apply at each use site). -/
structure Plan where
  question : Option String
  data_sources : Option (List String)
  analysis_needed : Option String
  submit_url : Option String
  answer_format : Option String

/-- The `downloaded_data` list of `execute_solution_plan`: fetch every
data source through the `DataProcessor.fetch_and_process` oracle and keep
the truthy results. -/
def downloadedData (fetchData : String → Option DataItem) (plan : Plan) :
    List DataItem :=
  (plan.data_sources.getD []).filterMap fun src =>
    match fetchData src with
    | some d => if itemTruthy d then some d else none
    | none => none

/-- The format-directed coercion of `QuizSolver.execute_solution_plan`
(quiz_solver.py lines 238–282), applied to the stripped answer text. Each
Python branch returns a value (the `except` arms return `answer_text`),
so the result is total. Oracles: `createChart` for
`Visualizer.create_chart` (data, chart type, title) and `jsonLoads` for
`json.loads` (`none` models a parse exception). -/
def coerceAnswer (createChart : ChartData → String → String → Option String)
    (jsonLoads : String → Option PyVal) (downloaded : List DataItem)
    (plan : Plan) (answer_text : String) : PyVal :=
  let fmt := plan.answer_format.getD "string"
  if fmt = "number" then
    match firstNumToken answer_text.toList with
    | some tok =>
      if tok.contains '.' then .float (parseFloatTok tok)
      else .int (parseIntTok tok)
    | none => .str answer_text
  else if fmt = "boolean" then
    .bool (strContains (asciiLower answer_text) "true" ||
      strContains (asciiLower answer_text) "yes")
  else if fmt = "json" then
    match extractBraces answer_text.toList with
    | some sub =>
      match jsonLoads (String.mk sub) with
      | some v => v
      | none => .str answer_text
    | none => .str answer_text
  else if fmt = "base64_image" || strContains (asciiLower fmt) "chart" ||
      strContains (asciiLower fmt) "visualization" then
    match prepareChartData downloaded with
    | some cd =>
      match createChart cd (determineChartType answer_text)
          (pySlice50 (plan.question.getD "Chart")) with
      | some b64 =>
        if b64 = "" then .str answer_text else .str b64
      | none => .str answer_text
    | none => .str answer_text
  else .str answer_text

/-- Embedding of `QuizSolver.execute_solution_plan` (quiz_solver.py lines
196–286): fetch the data sources, fail on an absent or empty model
answer (`return None`), otherwise coerce the stripped answer text.
`fetchData` is the `DataProcessor.fetch_and_process` oracle and
`llmAnswer` the language model's answer text for this call. -/
def executeSolutionPlan (fetchData : String → Option DataItem)
    (createChart : ChartData → String → String → Option String)
    (jsonLoads : String → Option PyVal)
    (llmAnswer : Option String) (plan : Plan) : Option PyVal :=
  match llmAnswer with
  | none => none
  | some content =>
    if content = "" then none
    else
      some (coerceAnswer createChart jsonLoads (downloadedData fetchData plan)
        plan (pyStrip content))

/-! ## Single quiz step — `QuizSolver.solve_single_quiz` -/

/-- The solution dict built by `analyze_and_solve`: submit URL (empty
models a falsy/missing one) and the computed answer (possibly `None`). -/
structure Solution where
  submit_url : String
  answer : Option PyVal

/-- Grading response body `{correct, url?, reason?}` parsed from a 200
submission response. -/
structure Grading where
  correct : Bool
  url : Option String
  reason : Option String

/-- Embedding of `QuizSolver.solve_single_quiz` (quiz_solver.py lines
52–88) with its three external results as parameters: the fetched page
content (`none` or empty on failure), the solution from
`analyze_and_solve` (`none` on failure), and the grading response from
`submit_answer` (`none` on a non-200 or network failure). -/
def solveSingleQuiz (fetched : Option String) (solution : Option Solution)
    (grading : Option Grading) : Option String :=
  match fetched with
  | none => none
  | some content =>
    if content = "" then none
    else
      match solution with
      | none => none
      | some sol =>
        if sol.submit_url = "" then none
        else
          match grading with
          | none => none
          | some g =>
            if g.correct then g.url
            else
              match g.url with
              | some u => if u = "" then none else some u
              | none => none

/-! ## Chain controller — `QuizSolver.solve_quiz_chain` -/

/-- Reason the chain loop stopped, reified from the loop's exit paths:
`completed` for a falsy next URL, `stepLimit` for the `quiz_count <
max_quizzes` bound, `timeLimit` for the 170-second check, `errored` for a
caught per-step exception, `noInitialUrl` for a falsy starting URL. -/
inductive StopReason where
  | completed
  | stepLimit
  | timeLimit
  | errored
  | noInitialUrl
deriving DecidableEq

/-- Embedding of the `while` loop of `QuizSolver.solve_quiz_chain`
(quiz_solver.py lines 27–50). `solve` gives the step's
`solve_single_quiz` outcome (`Except.error` models a raised exception),
`elapsed` the value of `time.time() - self.start_time` observed at the
check before the step with the given count, `fuel` equals
`max_quizzes - quiz_count` so that exhausted fuel is exactly the step
bound. Returns the final `quiz_count`, the stop reason, and the final
current URL. -/
def chainGo (solve : Nat → String → Except Unit (Option String))
    (elapsed : Nat → Nat) :
    Nat → Nat → String → Nat × StopReason × String
  | 0, count, url => (count, .stepLimit, url)
  | fuel + 1, count, url =>
    if elapsed count > 170 then (count, .timeLimit, url)
    else
      match solve count url with
      | .error _ => (count + 1, .errored, url)
      | .ok none => (count + 1, .completed, url)
      | .ok (some u) =>
        if u = "" then (count + 1, .completed, url)
        else chainGo solve elapsed fuel (count + 1) u

/-- Embedding of `QuizSolver.solve_quiz_chain`: run the loop from the
initial URL with `max_quizzes = 20` and `quiz_count = 0`. -/
def solveQuizChain (solve : Nat → String → Except Unit (Option String))
    (elapsed : Nat → Nat) (initial : String) : Nat × StopReason × String :=
  if initial = "" then (0, .noInitialUrl, initial)
  else chainGo solve elapsed 20 0 initial

/-- The per-step oracle induced by per-step external results: step `i`
runs `solve_single_quiz` on content `contents i`, solution `sols i` and
grading `gs i`, raising no exception. -/
def oracleOf (contents : Nat → String) (sols : Nat → Solution)
    (gs : Nat → Grading) : Nat → String → Except Unit (Option String) :=
  fun i _ =>
    .ok (solveSingleQuiz (some (contents i)) (some (sols i)) (some (gs i)))

/-! ## Helper lemmas on the string primitives -/

/-- Characterisation of `listStarts` by `List.IsPrefix`. -/
theorem listStarts_iff {l pat : List Char} : listStarts l pat = true ↔ pat <+: l := by
  induction l generalizing pat with
  | nil => cases pat <;> simp [listStarts]
  | cons c cs ih =>
    cases pat with
    | nil => simp [listStarts]
    | cons p ps =>
      rw [show listStarts (c :: cs) (p :: ps) = (decide (c = p) && listStarts cs ps)
        from rfl]
      rw [Bool.and_eq_true, decide_eq_true_eq, ih, List.cons_prefix_cons]
      constructor
      · rintro ⟨h1, h2⟩; exact ⟨h1.symm, h2⟩
      · rintro ⟨h1, h2⟩; exact ⟨h1.symm, h2⟩

/-- Characterisation of `listContains` by `List.IsInfix`. -/
theorem listContains_iff {hay needle : List Char} :
    listContains hay needle = true ↔ needle <:+: hay := by
  induction hay with
  | nil => simp [listContains, List.isEmpty_iff, List.infix_nil]
  | cons c t ih =>
    simp [listContains, listStarts_iff, ih, List.infix_cons_iff]

/-- A string with a non-empty prefix is non-empty. -/
theorem strStartsWith_ne_empty {s pat : String} (hp : pat.toList ≠ [])
    (h : strStartsWith s pat = true) : s ≠ "" := by
  intro hc
  subst hc
  unfold strStartsWith at h
  rw [listStarts_iff] at h
  exact hp (List.prefix_nil.mp h)

/-- A string containing a non-empty substring is non-empty. -/
theorem strContains_ne_empty {s pat : String} (hp : pat.toList ≠ [])
    (h : strContains s pat = true) : s ≠ "" := by
  intro hc
  subst hc
  unfold strContains at h
  rw [listContains_iff] at h
  exact hp (List.infix_nil.mp h)

/-- A string starting with `'/'` does not start with `"http"`. -/
theorem startsWith_slash_not_http {s : String} (h : strStartsWith s "/" = true) :
    strStartsWith s "http" = false := by
  unfold strStartsWith at h ⊢
  rw [listStarts_iff] at h
  rcases h with ⟨t, ht⟩
  rw [show ("/" : String).toList = ['/'] from rfl] at ht
  rw [← ht]
  rw [show ('/' :: []) ++ t = '/' :: t from rfl]
  rw [Bool.eq_false_iff]
  intro hc
  rw [listStarts_iff] at hc
  rcases List.cons_prefix_cons.mp hc with ⟨h1, _⟩
  exact absurd h1 (by decide)

/-! ## Claims C4, C5, C10 — submit-URL repair -/

/-- Claim C4: for every plan whose submit URL starts with `'/'`, the
repaired submit URL is the quiz URL's scheme, then `"://"`, then the quiz
URL's host, then the original path, concatenated in that order. -/
theorem claim_C4_root_relative_repair (urljoin : String → String → String)
    (quiz_url submit_url : String) (h : strStartsWith submit_url "/" = true) :
    repairSubmitUrl urljoin quiz_url submit_url =
      urlScheme quiz_url ++ "://" ++ urlNetloc quiz_url ++ submit_url := by
  have hne : submit_url ≠ "" := strStartsWith_ne_empty (by decide) h
  have hh : strStartsWith submit_url "http" = false := startsWith_slash_not_http h
  unfold repairSubmitUrl
  rw [if_pos ⟨hne, Or.inr hh⟩, if_pos h]

/-- Witness for claim C4 at `submit_url = "/submit"`,
`quiz_url = "https://example.com/quiz"`. -/
theorem claim_C4_root_relative_repair_witness :
    repairSubmitUrl (fun _ s => s) "https://example.com/quiz" "/submit" =
      urlScheme "https://example.com/quiz" ++ "://" ++
        urlNetloc "https://example.com/quiz" ++ "/submit" :=
  claim_C4_root_relative_repair (fun _ s => s) "https://example.com/quiz" "/submit"
    (by decide)

/-- Counterexample to claim C5 as stated: the submit URL
`"/current-page-url/submit"` contains the placeholder token, yet the
repaired URL still contains the token unreplaced (the leading-`'/'`
branch takes precedence over the placeholder branch), and in fact equals
scheme-and-host prefixed to the original path. -/
theorem claim_C5_counterexample :
    strContains "/current-page-url/submit" "current-page-url" = true ∧
    repairSubmitUrl (fun _ s => s) "https://example.com/quiz"
        "/current-page-url/submit" =
      "https://example.com/current-page-url/submit" ∧
    strContains
      (repairSubmitUrl (fun _ s => s) "https://example.com/quiz"
        "/current-page-url/submit") "current-page-url" = true := by
  refine ⟨by decide, by decide, by decide⟩

/-- Claim C5 (amended): for every plan whose submit URL contains the
placeholder token `"current-page-url"` and does not start with `'/'`, the
repaired submit URL has the token replaced by the quiz URL's host, and is
prefixed with the quiz URL's scheme and `"://"` exactly when the replaced
string does not start with `"http"`. -/
theorem claim_C5_placeholder_repair (urljoin : String → String → String)
    (quiz_url submit_url : String)
    (h1 : strContains submit_url "current-page-url" = true)
    (h2 : strStartsWith submit_url "/" = false) :
    repairSubmitUrl urljoin quiz_url submit_url =
      (if strStartsWith
            (strReplace submit_url "current-page-url" (urlNetloc quiz_url))
            "http" = false then
        urlScheme quiz_url ++ "://" ++
          strReplace submit_url "current-page-url" (urlNetloc quiz_url)
      else strReplace submit_url "current-page-url" (urlNetloc quiz_url)) := by
  have hne : submit_url ≠ "" := strContains_ne_empty (by decide) h1
  unfold repairSubmitUrl
  rw [if_pos ⟨hne, Or.inl h1⟩, if_neg (by rw [h2]; exact Bool.false_ne_true), if_pos h1]

/-- Witness for claim C5 (amended) at
`submit_url = "current-page-url/submit"`. -/
theorem claim_C5_placeholder_repair_witness :
    repairSubmitUrl (fun _ s => s) "https://example.com/quiz"
        "current-page-url/submit" =
      (if strStartsWith
            (strReplace "current-page-url/submit" "current-page-url"
              (urlNetloc "https://example.com/quiz")) "http" = false then
        urlScheme "https://example.com/quiz" ++ "://" ++
          strReplace "current-page-url/submit" "current-page-url"
            (urlNetloc "https://example.com/quiz")
      else
        strReplace "current-page-url/submit" "current-page-url"
          (urlNetloc "https://example.com/quiz")) :=
  claim_C5_placeholder_repair (fun _ s => s) "https://example.com/quiz"
    "current-page-url/submit" (by decide) (by decide)

/-- Claim C10: the repair step is the identity on every non-empty submit
URL that already starts with `"http"` and does not contain the
placeholder token. -/
theorem claim_C10_repair_identity (urljoin : String → String → String)
    (quiz_url submit_url : String) (h1 : submit_url ≠ "")
    (h2 : strStartsWith submit_url "http" = true)
    (h3 : strContains submit_url "current-page-url" = false) :
    repairSubmitUrl urljoin quiz_url submit_url = submit_url := by
  unfold repairSubmitUrl
  rw [if_neg]
  rintro ⟨-, hor⟩
  rcases hor with hb | hb
  · rw [h3] at hb; exact Bool.false_ne_true hb
  · rw [h2] at hb; exact absurd hb (by decide)

/-- Witness for claim C10 at `submit_url = "https://other.com/submit"`. -/
theorem claim_C10_repair_identity_witness :
    repairSubmitUrl (fun _ s => s) "https://example.com/quiz"
        "https://other.com/submit" = "https://other.com/submit" :=
  claim_C10_repair_identity (fun _ s => s) "https://example.com/quiz"
    "https://other.com/submit" (by decide) (by decide) (by decide)

/-! ## Helper lemmas on the chain loop -/

/-- The final step count never falls below the starting count. -/
theorem chainGo_count_ge (solve : Nat → String → Except Unit (Option String))
    (elapsed : Nat → Nat) :
    ∀ (fuel count : Nat) (url : String),
      count ≤ (chainGo solve elapsed fuel count url).1 := by
  intro fuel
  induction fuel with
  | zero => intro count url; exact Nat.le_refl count
  | succ fuel ih =>
    intro count url
    simp only [chainGo]
    split
    · exact Nat.le_refl count
    · split
      · exact Nat.le_succ count
      · exact Nat.le_succ count
      · split
        · exact Nat.le_succ count
        · exact Nat.le_trans (Nat.le_succ count) (ih (count + 1) _)

/-- The final step count is bounded by the starting count plus the fuel. -/
theorem chainGo_count_le (solve : Nat → String → Except Unit (Option String))
    (elapsed : Nat → Nat) :
    ∀ (fuel count : Nat) (url : String),
      (chainGo solve elapsed fuel count url).1 ≤ count + fuel := by
  intro fuel
  induction fuel with
  | zero => intro count url; exact Nat.le_refl count
  | succ fuel ih =>
    intro count url
    simp only [chainGo]
    split
    · exact Nat.le_add_right count (fuel + 1)
    · split
      · omega
      · omega
      · split
        · omega
        · have := ih (count + 1) (by assumption)
          omega

/-- When every step yields a truthy next URL and the time budget is never
exceeded, the loop burns all its fuel and stops at the step limit. -/
theorem chainGo_exhausts (solve : Nat → String → Except Unit (Option String))
    (elapsed : Nat → Nat)
    (hnext : ∀ i u, ∃ v, solve i u = .ok (some v) ∧ v ≠ "")
    (htime : ∀ i, elapsed i ≤ 170) :
    ∀ (fuel count : Nat) (url : String),
      (chainGo solve elapsed fuel count url).1 = count + fuel ∧
        (chainGo solve elapsed fuel count url).2.1 = .stepLimit := by
  intro fuel
  induction fuel with
  | zero => intro count url; exact ⟨rfl, rfl⟩
  | succ fuel ih =>
    intro count url
    simp only [chainGo]
    rw [if_neg (by exact Nat.not_lt.mpr (htime count))]
    obtain ⟨v, hv, hv'⟩ := hnext count url
    rw [hv]
    simp only
    rw [if_neg hv']
    have h := ih (count + 1) v
    refine ⟨?_, h.2⟩
    rw [h.1]
    omega


/-- If the elapsed-time oracle exceeds the ceiling at check `k`, the loop
never consults the per-step oracle at or beyond index `k`: two oracles
agreeing below `k` produce identical runs, and the final count stays at
most `k`. -/
theorem chainGo_time_cutoff (solve solve' : Nat → String → Except Unit (Option String))
    (elapsed : Nat → Nat) (k : Nat) (hk : 170 < elapsed k)
    (hag : ∀ i, i < k → solve i = solve' i) :
    ∀ (fuel count : Nat) (url : String), count ≤ k →
      chainGo solve elapsed fuel count url = chainGo solve' elapsed fuel count url ∧
        (chainGo solve elapsed fuel count url).1 ≤ k := by
  intro fuel
  induction fuel with
  | zero => intro count url hck; exact ⟨rfl, hck⟩
  | succ fuel ih =>
    intro count url hck
    by_cases ht : 170 < elapsed count
    · constructor
      · simp only [chainGo]
        rw [if_pos ht, if_pos ht]
      · simp only [chainGo]
        rw [if_pos ht]
        exact hck
    · have hcklt : count < k := by
        rcases Nat.lt_or_ge count k with h | h
        · exact h
        · exfalso
          have heq : count = k := Nat.le_antisymm hck h
          rw [heq] at ht
          exact ht hk
      have hs : solve count = solve' count := hag count hcklt
      simp only [chainGo]
      rw [if_neg ht, if_neg ht, hs]
      rcases hv : solve' count url with e | o
      · exact ⟨rfl, hcklt⟩
      · rcases o with _ | v
        · exact ⟨rfl, hcklt⟩
        · simp only
          by_cases hvv : v = ""
          · rw [if_pos hvv, if_pos hvv]
            exact ⟨rfl, hcklt⟩
          · rw [if_neg hvv, if_neg hvv]
            exact ih (count + 1) v hcklt

/-! ## Claim C1 — step limit and counter bounds -/

/-- Claim C1: when every grading response yields a truthy next URL and
the time ceiling is never exceeded, the chain executes exactly 20 steps
and stops with reason `stepLimit`; moreover, for every run whatsoever the
final step count is at most 20, and the counter never decreases (the
count reached from any loop state is at least the starting count). -/
theorem claim_C1_step_limit (solve : Nat → String → Except Unit (Option String))
    (elapsed : Nat → Nat) (initial : String)
    (hnext : ∀ i u, ∃ v, solve i u = .ok (some v) ∧ v ≠ "")
    (htime : ∀ i, elapsed i ≤ 170) (hinit : initial ≠ "") :
    ((solveQuizChain solve elapsed initial).1 = 20 ∧
      (solveQuizChain solve elapsed initial).2.1 = .stepLimit) ∧
    (∀ (s : Nat → String → Except Unit (Option String)) (e : Nat → Nat)
        (u : String), (solveQuizChain s e u).1 ≤ 20) ∧
    (∀ (s : Nat → String → Except Unit (Option String)) (e : Nat → Nat)
        (fuel count : Nat) (u : String),
      count ≤ (chainGo s e fuel count u).1 ∧
        (chainGo s e fuel count u).1 ≤ count + fuel) := by
  refine ⟨?_, ?_, ?_⟩
  · unfold solveQuizChain
    rw [if_neg hinit]
    exact chainGo_exhausts solve elapsed hnext htime 20 0 initial
  · intro s e u
    unfold solveQuizChain
    split
    · exact Nat.zero_le 20
    · exact chainGo_count_le s e 20 0 u
  · intro s e fuel count u
    exact ⟨chainGo_count_ge s e fuel count u, chainGo_count_le s e fuel count u⟩

/-- Witness for claim C1: a chain whose oracle always answers with the
next URL `"next"` under zero elapsed time runs exactly 20 steps. -/
theorem claim_C1_step_limit_witness :
    (solveQuizChain (fun _ _ => .ok (some "next")) (fun _ => 0) "http://a").1 = 20 ∧
    (solveQuizChain (fun _ _ => .ok (some "next")) (fun _ => 0) "http://a").2.1 =
      .stepLimit :=
  (claim_C1_step_limit (fun _ _ => .ok (some "next")) (fun _ => 0) "http://a"
    (fun _ _ => ⟨"next", rfl, by decide⟩) (fun _ => Nat.zero_le 170)
    (by decide)).1

/-! ## Claim C2 — time budget -/

/-- Claim C2: when the elapsed-time check at the start of step `k`
exceeds the 170-second ceiling, the loop stops there before doing any
work for that step (it returns at once with reason `timeLimit`), no
per-step call at index `k` or later can influence the run (oracles
agreeing below `k` give identical results), and the final step count
never exceeds `k`. -/
theorem claim_C2_time_budget (solve solve' : Nat → String → Except Unit (Option String))
    (elapsed : Nat → Nat) (k : Nat) (initial : String)
    (hk : 170 < elapsed k) (hag : ∀ i, i < k → solve i = solve' i) :
    (∀ (fuel : Nat) (url : String),
      chainGo solve elapsed (fuel + 1) k url = (k, .timeLimit, url)) ∧
    solveQuizChain solve elapsed initial = solveQuizChain solve' elapsed initial ∧
    (solveQuizChain solve elapsed initial).1 ≤ k := by
  refine ⟨?_, ?_⟩
  · intro fuel url
    simp only [chainGo]
    rw [if_pos hk]
  · unfold solveQuizChain
    split
    · exact ⟨rfl, Nat.zero_le k⟩
    · exact chainGo_time_cutoff solve solve' elapsed k hk hag 20 0 initial
        (Nat.zero_le k)

/-- Witness for claim C2: two oracles that disagree from step 3 onward
give the same run when the clock passes the ceiling at check 3. -/
theorem claim_C2_time_budget_witness :
    solveQuizChain (fun i _ => .ok (some "a")) (fun i => if i ≥ 3 then 200 else 0)
        "http://a" =
      solveQuizChain (fun i _ => if i ≥ 3 then .ok none else .ok (some "a"))
        (fun i => if i ≥ 3 then 200 else 0) "http://a" ∧
    (solveQuizChain (fun i _ => .ok (some "a")) (fun i => if i ≥ 3 then 200 else 0)
        "http://a").1 ≤ 3 :=
  (claim_C2_time_budget (fun i _ => .ok (some "a"))
    (fun i _ => if i ≥ 3 then .ok none else .ok (some "a"))
    (fun i => if i ≥ 3 then 200 else 0) 3 "http://a" (by decide)
    (fun i hi => by
      have : ¬ i ≥ 3 := by omega
      simp [this])).2

/-! ## Claim C7 — grading-response continuation -/

/-- Claim C7: after a successful submission (non-empty content, a
solution with a truthy submit URL, a grading response), the chain
continues with the grading response's next URL whenever a truthy one is
present — whatever the correctness verdict — and a session whose grading
responses never include a next URL stops after exactly one step with
reason `completed`. -/
theorem claim_C7_grading_continuation (contents : Nat → String)
    (sols : Nat → Solution) (gs : Nat → Grading) (elapsed : Nat → Nat)
    (initial : String) (hc : ∀ i, contents i ≠ "")
    (hs : ∀ i, (sols i).submit_url ≠ "") (hinit : initial ≠ "")
    (ht0 : elapsed 0 ≤ 170) :
    (∀ (fuel count : Nat) (url u : String), elapsed count ≤ 170 →
      (gs count).url = some u → u ≠ "" →
      chainGo (oracleOf contents sols gs) elapsed (fuel + 1) count url =
        chainGo (oracleOf contents sols gs) elapsed fuel (count + 1) u) ∧
    ((∀ i, (gs i).url = none) →
      solveQuizChain (oracleOf contents sols gs) elapsed initial =
        (1, .completed, initial)) := by
  have hstep : ∀ i, solveSingleQuiz (some (contents i)) (some (sols i))
      (some (gs i)) =
        (if (gs i).correct then (gs i).url
         else match (gs i).url with
           | some u => if u = "" then none else some u
           | none => none) := by
    intro i
    simp only [solveSingleQuiz]
    rw [if_neg (hc i), if_neg (hs i)]
  refine ⟨?_, ?_⟩
  · intro fuel count url u hti hu hune
    simp only [chainGo]
    rw [if_neg (Nat.not_lt.mpr hti)]
    unfold oracleOf
    rw [hstep count, hu]
    rcases hcor : (gs count).correct
    · simp [hune]
    · simp [hune]
  · intro hnone
    unfold solveQuizChain
    rw [if_neg hinit]
    rw [show (20 : Nat) = 19 + 1 from rfl]
    simp only [chainGo]
    rw [if_neg (Nat.not_lt.mpr ht0)]
    unfold oracleOf
    rw [hstep 0, hnone 0]
    rcases hcor : (gs 0).correct
    · simp
    · simp

/-! ## Stripping commutes with lowercasing and preserves token containment -/

/-- Lowercasing does not change whether a character is whitespace. -/
theorem pyWS_asciiLowerChar (c : Char) : pyWS (asciiLowerChar c) = pyWS c := by
  unfold asciiLowerChar
  split <;> rfl

/-- Stripping commutes with lowercasing. -/
theorem stripList_map_lower (l : List Char) :
    stripList (l.map asciiLowerChar) = (stripList l).map asciiLowerChar := by
  unfold stripList
  have hp : (pyWS ∘ asciiLowerChar) = pyWS := funext pyWS_asciiLowerChar
  rw [List.dropWhile_map, hp, ← List.map_reverse, List.dropWhile_map, hp,
    ← List.map_reverse]

/-- A whitespace-free non-empty needle occurs in `l.dropWhile pyWS` if and
only if it occurs in `l`. -/
theorem infix_dropWhile_iff {needle : List Char} (hne : needle ≠ [])
    (hws : ∀ c ∈ needle, pyWS c = false) :
    ∀ l : List Char, needle <:+: l.dropWhile pyWS ↔ needle <:+: l := by
  intro l
  induction l with
  | nil => simp
  | cons c t ih =>
    by_cases hc : pyWS c = true
    · rw [List.dropWhile_cons_of_pos hc, ih]
      constructor
      · intro h
        exact List.infix_cons_iff.mpr (Or.inr h)
      · intro h
        rcases List.infix_cons_iff.mp h with hpre | h2
        · exfalso
          rcases hn : needle with _ | ⟨n0, ns⟩
          · exact hne hn
          · rw [hn] at hpre
            rcases List.cons_prefix_cons.mp hpre with ⟨h0, -⟩
            have hn0 := hws n0 (hn ▸ List.mem_cons_self n0 ns)
            rw [h0] at hn0
            rw [hn0] at hc
            exact Bool.noConfusion hc
        · exact h2
    · rw [List.dropWhile_cons_of_neg hc]

/-- A whitespace-free non-empty needle occurs in `stripList l` if and
only if it occurs in `l`. -/
theorem infix_stripList_iff {needle : List Char} (hne : needle ≠ [])
    (hws : ∀ c ∈ needle, pyWS c = false) (l : List Char) :
    needle <:+: stripList l ↔ needle <:+: l := by
  have hrevne : needle.reverse ≠ [] := by
    intro hr
    exact hne (by simpa using congrArg List.reverse hr)
  have hrevws : ∀ c ∈ needle.reverse, pyWS c = false := by
    intro c hcmem
    exact hws c (List.mem_reverse.mp hcmem)
  unfold stripList
  have h1 : needle <:+: ((l.dropWhile pyWS).reverse.dropWhile pyWS).reverse ↔
      needle.reverse <:+: (l.dropWhile pyWS).reverse.dropWhile pyWS := by
    conv_lhs => rw [← List.reverse_reverse needle]
    exact List.reverse_infix
  rw [h1, infix_dropWhile_iff hrevne hrevws ((l.dropWhile pyWS).reverse)]
  rw [ List.reverse_infix]
  exact infix_dropWhile_iff hne hws l

/-- Containment of a whitespace-free non-empty token is unchanged by
stripping the haystack. -/
theorem strContains_pyStrip (s tok : String) (hne : tok.toList ≠ [])
    (hws : ∀ c ∈ tok.toList, pyWS c = false) :
    strContains (pyStrip s) tok = strContains s tok := by
  rw [Bool.eq_iff_iff]
  unfold strContains pyStrip
  rw [listContains_iff, listContains_iff]
  show tok.toList <:+: stripList s.toList ↔ tok.toList <:+: s.toList
  exact infix_stripList_iff hne hws s.toList

/-- Lowercasing after stripping equals stripping after lowercasing. -/
theorem asciiLower_pyStrip (s : String) :
    asciiLower (pyStrip s) = pyStrip (asciiLower s) :=
  (congrArg String.mk (stripList_map_lower s.toList)).symm

/-- Reduction of `executeSolutionPlan` on a non-empty model answer. -/
theorem executeSolutionPlan_some (fetchData : String → Option DataItem)
    (createChart : ChartData → String → String → Option String)
    (jsonLoads : String → Option PyVal) (plan : Plan) {content : String}
    (hc : content ≠ "") :
    executeSolutionPlan fetchData createChart jsonLoads (some content) plan =
      some (coerceAnswer createChart jsonLoads (downloadedData fetchData plan)
        plan (pyStrip content)) := by
  show (if content = "" then none
    else some (coerceAnswer createChart jsonLoads
      (downloadedData fetchData plan) plan (pyStrip content))) = _
  rw [if_neg hc]

/-! ## Claim C6 — boolean coercion -/

/-- Claim C6: for a declared shape of `boolean`, the resolved answer is
`true` exactly when the lowercased model response text contains `"true"`
or `"yes"`; in particular `"Yes, that is correct"` resolves to `true`
while a pure-`"No"` response and a response containing neither token
resolve to `false`. -/
theorem claim_C6_boolean_resolution (fetchData : String → Option DataItem)
    (createChart : ChartData → String → String → Option String)
    (jsonLoads : String → Option PyVal) (plan : Plan)
    (hfmt : plan.answer_format = some "boolean") :
    (∀ t : String, t ≠ "" →
      executeSolutionPlan fetchData createChart jsonLoads (some t) plan =
        some (.bool (strContains (asciiLower t) "true" ||
          strContains (asciiLower t) "yes"))) ∧
    executeSolutionPlan fetchData createChart jsonLoads
        (some "Yes, that is correct") plan = some (.bool true) ∧
    executeSolutionPlan fetchData createChart jsonLoads (some "No") plan =
      some (.bool false) ∧
    executeSolutionPlan fetchData createChart jsonLoads
        (some "Absolutely not") plan = some (.bool false) := by
  have hmain : ∀ t : String, t ≠ "" →
      executeSolutionPlan fetchData createChart jsonLoads (some t) plan =
        some (.bool (strContains (asciiLower t) "true" ||
          strContains (asciiLower t) "yes")) := by
    intro t ht
    rw [executeSolutionPlan_some fetchData createChart jsonLoads plan ht]
    congr 1
    simp only [coerceAnswer, hfmt, Option.getD_some]
    rw [if_neg (by decide : ¬("boolean" : String) = "number")]
    rw [if_true]
    congr 1
    rw [asciiLower_pyStrip,
      strContains_pyStrip _ _ (by decide) (by decide),
      strContains_pyStrip _ _ (by decide) (by decide)]
  refine ⟨hmain, ?_, ?_, ?_⟩
  · rw [hmain _ (by decide)]
    congr 1
  · rw [hmain _ (by decide)]
    congr 1
  · rw [hmain _ (by decide)]
    congr 1

/-- Witness for claim C6 at the response `"Yes, that is correct"`. -/
theorem claim_C6_boolean_resolution_witness :
    executeSolutionPlan (fun _ => none) (fun _ _ _ => none) (fun _ => none)
        (some "Yes, that is correct") ⟨none, none, none, none, some "boolean"⟩ =
      some (.bool (strContains (asciiLower "Yes, that is correct") "true" ||
        strContains (asciiLower "Yes, that is correct") "yes")) :=
  (claim_C6_boolean_resolution (fun _ => none) (fun _ _ _ => none) (fun _ => none)
    ⟨none, none, none, none, some "boolean"⟩ rfl).1 "Yes, that is correct" (by decide)

/-- Witness for claim C7: a session graded incorrect with no next URL at
every step stops after exactly one step with reason `completed`. -/
theorem claim_C7_grading_continuation_witness :
    solveQuizChain (oracleOf (fun _ => "page") (fun _ => ⟨"http://s", none⟩)
        (fun _ => ⟨false, none, none⟩)) (fun _ => 0) "http://a" =
      (1, .completed, "http://a") :=
  (claim_C7_grading_continuation (fun _ => "page") (fun _ => ⟨"http://s", none⟩)
    (fun _ => ⟨false, none, none⟩) (fun _ => 0) "http://a"
    (fun _ => (by decide : ("page" : String) ≠ ""))
    (fun _ => (by decide : ("http://s" : String) ≠ ""))
    (by decide) (Nat.zero_le 170)).2 (fun _ => rfl)

/-! ## Branch lemmas for the answer coercion -/

/-- The `'number'` branch of the coercion. -/
theorem coerceAnswer_number (createChart : ChartData → String → String → Option String)
    (jsonLoads : String → Option PyVal) (downloaded : List DataItem)
    (plan : Plan) (answer_text : String)
    (hfmt : plan.answer_format = some "number") :
    coerceAnswer createChart jsonLoads downloaded plan answer_text =
      (match firstNumToken answer_text.toList with
        | some tok =>
          if tok.contains '.' then .float (parseFloatTok tok)
          else .int (parseIntTok tok)
        | none => .str answer_text) := by
  simp only [coerceAnswer, hfmt, Option.getD_some, if_true]

/-- The `'json'` branch of the coercion. -/
theorem coerceAnswer_json (createChart : ChartData → String → String → Option String)
    (jsonLoads : String → Option PyVal) (downloaded : List DataItem)
    (plan : Plan) (answer_text : String)
    (hfmt : plan.answer_format = some "json") :
    coerceAnswer createChart jsonLoads downloaded plan answer_text =
      (match extractBraces answer_text.toList with
        | some sub =>
          match jsonLoads (String.mk sub) with
          | some v => v
          | none => .str answer_text
        | none => .str answer_text) := by
  simp only [coerceAnswer, hfmt, Option.getD_some]
  rw [if_neg (by decide : ¬("json" : String) = "number"),
    if_neg (by decide : ¬("json" : String) = "boolean"), if_true]

/-- The chart branch of the coercion for the declared shape
`'base64_image'`. -/
theorem coerceAnswer_chart (createChart : ChartData → String → String → Option String)
    (jsonLoads : String → Option PyVal) (downloaded : List DataItem)
    (plan : Plan) (answer_text : String)
    (hfmt : plan.answer_format = some "base64_image") :
    coerceAnswer createChart jsonLoads downloaded plan answer_text =
      (match prepareChartData downloaded with
        | some cd =>
          match createChart cd (determineChartType answer_text)
              (pySlice50 (plan.question.getD "Chart")) with
          | some b64 => if b64 = "" then .str answer_text else .str b64
          | none => .str answer_text
        | none => .str answer_text) := by
  simp only [coerceAnswer, hfmt, Option.getD_some]
  rw [if_neg (by decide : ¬("base64_image" : String) = "number"),
    if_neg (by decide : ¬("base64_image" : String) = "boolean"),
    if_neg (by decide : ¬("base64_image" : String) = "json"),
    if_pos (by decide)]

/-! ## Claim C3 — number coercion -/

/-- Counterexample to claim C3 as stated: resolving
`"The answer is 42."` under shape `number` does not yield the integer
`42` — the matched token is `"42."` (the regex swallows the sentence-final
period), which contains a decimal point and is parsed as a float. -/
theorem claim_C3_counterexample :
    executeSolutionPlan (fun _ => none) (fun _ _ _ => none) (fun _ => none)
        (some "The answer is 42.") ⟨none, none, none, none, some "number"⟩ ≠
      some (PyVal.int 42) := by
  intro h
  have h0 : executeSolutionPlan (fun _ => none) (fun _ _ _ => none) (fun _ => none)
        (some "The answer is 42.") ⟨none, none, none, none, some "number"⟩ =
      some (PyVal.float (parseFloatTok ['4', '2', '.'])) := rfl
  rw [h0] at h
  exact PyVal.noConfusion (Option.some.inj h)

/-- Claim C3 (amended): for a declared shape of `number`, resolving
`"The answer is 42."` yields the float `42.0` (the extracted token is
`"42."`), resolving `"Total: 3.14 units"` yields the float `3.14`, and
for every non-empty response whose stripped text contains no numeric
token the resolved answer is the stripped response text. -/
theorem claim_C3_number_resolution (fetchData : String → Option DataItem)
    (createChart : ChartData → String → String → Option String)
    (jsonLoads : String → Option PyVal) (plan : Plan)
    (hfmt : plan.answer_format = some "number") :
    executeSolutionPlan fetchData createChart jsonLoads
        (some "The answer is 42.") plan = some (.float 42) ∧
    executeSolutionPlan fetchData createChart jsonLoads
        (some "Total: 3.14 units") plan = some (.float (157 / 50)) ∧
    (∀ t : String, t ≠ "" → firstNumToken (pyStrip t).toList = none →
      executeSolutionPlan fetchData createChart jsonLoads (some t) plan =
        some (.str (pyStrip t))) := by
  refine ⟨?_, ?_, ?_⟩
  · rw [executeSolutionPlan_some _ _ _ _ (by decide),
      coerceAnswer_number _ _ _ _ _ hfmt]
    have h0 : (match firstNumToken (pyStrip "The answer is 42.").toList with
        | some tok =>
          if tok.contains '.' then PyVal.float (parseFloatTok tok)
          else PyVal.int (parseIntTok tok)
        | none => PyVal.str (pyStrip "The answer is 42.")) =
        PyVal.float (parseFloatTok ['4', '2', '.']) := rfl
    have h1 : parseFloatTok ['4', '2', '.'] =
        ((42 : Nat) : ℚ) + ((0 : Nat) : ℚ) / (10 : ℚ) ^ (0 : Nat) := rfl
    rw [h0, h1]
    norm_num
  · rw [executeSolutionPlan_some _ _ _ _ (by decide),
      coerceAnswer_number _ _ _ _ _ hfmt]
    have h0 : (match firstNumToken (pyStrip "Total: 3.14 units").toList with
        | some tok =>
          if tok.contains '.' then PyVal.float (parseFloatTok tok)
          else PyVal.int (parseIntTok tok)
        | none => PyVal.str (pyStrip "Total: 3.14 units")) =
        PyVal.float (parseFloatTok ['3', '.', '1', '4']) := rfl
    have h1 : parseFloatTok ['3', '.', '1', '4'] =
        ((3 : Nat) : ℚ) + ((14 : Nat) : ℚ) / (10 : ℚ) ^ (2 : Nat) := rfl
    rw [h0, h1]
    norm_num
  · intro t ht hnone
    rw [executeSolutionPlan_some _ _ _ _ ht,
      coerceAnswer_number _ _ _ _ _ hfmt, hnone]

/-- Witness for claim C3 (amended) at the response
`"The answer is 42."`. -/
theorem claim_C3_number_resolution_witness :
    executeSolutionPlan (fun _ => none) (fun _ _ _ => none) (fun _ => none)
        (some "The answer is 42.") ⟨none, none, none, none, some "number"⟩ =
      some (.float 42) :=
  (claim_C3_number_resolution (fun _ => none) (fun _ _ _ => none) (fun _ => none)
    ⟨none, none, none, none, some "number"⟩ rfl).1

/-! ## Claim C8 — coercion failures fall back to the stripped text -/

/-- Claim C8: the answer resolver fails (returns `none`) exactly when the
model response is absent or empty (lower-layer exceptions are outside the
pure model), and every shape-specific coercion failure — no numeric
token, no brace-delimited JSON substring, a JSON parse failure, absent
usable chart data, or a chart-generation failure — yields the raw
trimmed response text as the answer. -/
theorem claim_C8_failure_fallbacks (fetchData : String → Option DataItem)
    (createChart : ChartData → String → String → Option String)
    (jsonLoads : String → Option PyVal) (plan : Plan) :
    (∀ r : Option String,
      executeSolutionPlan fetchData createChart jsonLoads r plan = none ↔
        (r = none ∨ r = some "")) ∧
    (∀ t : String, t ≠ "" → plan.answer_format = some "number" →
      firstNumToken (pyStrip t).toList = none →
      executeSolutionPlan fetchData createChart jsonLoads (some t) plan =
        some (.str (pyStrip t))) ∧
    (∀ t : String, t ≠ "" → plan.answer_format = some "json" →
      extractBraces (pyStrip t).toList = none →
      executeSolutionPlan fetchData createChart jsonLoads (some t) plan =
        some (.str (pyStrip t))) ∧
    (∀ (t : String) (sub : List Char), t ≠ "" →
      plan.answer_format = some "json" →
      extractBraces (pyStrip t).toList = some sub →
      jsonLoads (String.mk sub) = none →
      executeSolutionPlan fetchData createChart jsonLoads (some t) plan =
        some (.str (pyStrip t))) ∧
    (∀ t : String, t ≠ "" → plan.answer_format = some "base64_image" →
      prepareChartData (downloadedData fetchData plan) = none →
      executeSolutionPlan fetchData createChart jsonLoads (some t) plan =
        some (.str (pyStrip t))) ∧
    (∀ (t : String) (cd : ChartData), t ≠ "" →
      plan.answer_format = some "base64_image" →
      prepareChartData (downloadedData fetchData plan) = some cd →
      createChart cd (determineChartType (pyStrip t))
          (pySlice50 (plan.question.getD "Chart")) = none →
      executeSolutionPlan fetchData createChart jsonLoads (some t) plan =
        some (.str (pyStrip t))) := by
  refine ⟨?_, ?_, ?_, ?_, ?_, ?_⟩
  · intro r
    cases r with
    | none => simp [executeSolutionPlan]
    | some c =>
      by_cases hc : c = ""
      · subst hc
        simp [executeSolutionPlan]
      · rw [executeSolutionPlan_some _ _ _ _ hc]
        simp [hc]
  · intro t ht hfmt hnone
    rw [executeSolutionPlan_some _ _ _ _ ht,
      coerceAnswer_number _ _ _ _ _ hfmt, hnone]
  · intro t ht hfmt hnone
    rw [executeSolutionPlan_some _ _ _ _ ht,
      coerceAnswer_json _ _ _ _ _ hfmt, hnone]
  · intro t sub ht hfmt hsub hparse
    rw [executeSolutionPlan_some _ _ _ _ ht,
      coerceAnswer_json _ _ _ _ _ hfmt, hsub]
    simp only [hparse]
  · intro t ht hfmt hpc
    rw [executeSolutionPlan_some _ _ _ _ ht,
      coerceAnswer_chart _ _ _ _ _ hfmt, hpc]
  · intro t cd ht hfmt hpc hchart
    rw [executeSolutionPlan_some _ _ _ _ ht,
      coerceAnswer_chart _ _ _ _ _ hfmt, hpc]
    simp only [hchart]

/-- Witness for claim C8: a `json`-shaped response without braces falls
back to the stripped text. -/
theorem claim_C8_failure_fallbacks_witness :
    executeSolutionPlan (fun _ => none) (fun _ _ _ => none) (fun _ => none)
        (some "no braces here") ⟨none, none, none, none, some "json"⟩ =
      some (.str (pyStrip "no braces here")) :=
  (claim_C8_failure_fallbacks (fun _ => none) (fun _ _ _ => none) (fun _ => none)
    ⟨none, none, none, none, some "json"⟩).2.2.1 "no braces here"
    (by decide) rfl (by decide)

/-! ## Claim C9 — chart-data selection -/

/-- Counterexample to claim C9 as stated: with a json-dict datum listed
before a csv datum that yields a non-empty frame, `prepare_chart_data`
returns the dict — list order wins, there is no tabular-before-json
preference. -/
theorem claim_C9_counterexample :
    prepareChartData
        [DataItem.json (.dict [("a", PyVal.int 1)]),
          DataItem.csv [("col", [PyVal.int 7])]] =
      some (ChartData.dict [("a", PyVal.int 1)]) ∧
    chartDatumOf (DataItem.csv [("col", [PyVal.int 7])]) =
      some (ChartData.frame [("col", [PyVal.int 7])]) ∧
    some (ChartData.dict [("a", PyVal.int 1)]) ≠
      some (ChartData.frame [("col", [PyVal.int 7])]) := by
  refine ⟨rfl, rfl, ?_⟩
  intro h
  exact ChartData.noConfusion (Option.some.inj h)

/-- Claim C9 (amended): when the declared shape calls for a chart,
`prepare_chart_data` selects the first acquired datum in list order that
yields a non-empty data frame (csv, or the first sheet of an excel
record) or a dict (json) — kinds are not reordered — provided no
raw-text datum occurs in the list; a raw-text datum makes the whole
selection fail (the `.get` call on a string raises, and the handler
returns `None`). -/
theorem claim_C9_first_usable (l : List DataItem)
    (h : ∀ s : String, DataItem.rawText s ∉ l) :
    prepareChartData l = l.findSome? chartDatumOf ∧
    (∀ (s : String) (rest : List DataItem),
      prepareChartData (DataItem.rawText s :: rest) = none) := by
  refine ⟨?_, fun s rest => rfl⟩
  induction l with
  | nil => rfl
  | cons d rest ih =>
    have hrest : ∀ s : String, DataItem.rawText s ∉ rest :=
      fun s hs => h s (List.mem_cons_of_mem d hs)
    cases d with
    | pdf text tables =>
      simp [prepareChartData, chartDatumOf, List.findSome?_cons, ih hrest]
    | csv df =>
      by_cases hc : df.isEmpty = false ∧ 0 < frameRows df
      · simp [prepareChartData, chartDatumOf, hc, List.findSome?_cons]
      · simp only [prepareChartData, chartDatumOf, List.findSome?_cons, if_neg hc]
        exact ih hrest
    | json v =>
      cases v <;>
        simp [prepareChartData, chartDatumOf, List.findSome?_cons, ih hrest]
    | excel sheets =>
      cases sheets with
      | nil => simp [prepareChartData, chartDatumOf, List.findSome?_cons, ih hrest]
      | cons s ss =>
        obtain ⟨name, dat⟩ := s
        by_cases hc : dat.isEmpty = false ∧ 0 < frameRows dat
        · simp [prepareChartData, chartDatumOf, hc, List.findSome?_cons]
        · simp only [prepareChartData, chartDatumOf, List.findSome?_cons, if_neg hc]
          exact ih hrest
    | html text tables =>
      simp [prepareChartData, chartDatumOf, List.findSome?_cons, ih hrest]
    | rawText s => exact absurd (List.mem_cons_self _ _) (h s)

/-- Witness for claim C9 (amended) on the two-item list of the
counterexample. -/
theorem claim_C9_first_usable_witness :
    prepareChartData
        [DataItem.json (.dict [("a", PyVal.int 1)]),
          DataItem.csv [("col", [PyVal.int 7])]] =
      List.findSome? chartDatumOf
        [DataItem.json (.dict [("a", PyVal.int 1)]),
          DataItem.csv [("col", [PyVal.int 7])]] :=
  (claim_C9_first_usable
    [DataItem.json (.dict [("a", PyVal.int 1)]),
      DataItem.csv [("col", [PyVal.int 7])]]
    (by
      intro s hs
      simp only [List.mem_cons, List.not_mem_nil, or_false] at hs
      rcases hs with h | h
      · exact DataItem.noConfusion h
      · exact DataItem.noConfusion h)).1
